import Mathlib

/-!
Shallow embedding of the ShiftFlow frontend (src/pages/index.js): the
session store (login / register / logout / startup probe over local
storage), the notification queue with its 5-second auto-expiry timers,
and the dashboard task operations (loadTasks, createTask,
updateTaskStatus, tasksByStatus, getStatusActions) together with the
RegisterForm submit pre-check.

Remote responses are modelled as inductive values: `ok` carries the
parsed success body, `err` carries the optional `error` field of a
parsed non-2xx JSON body, and `netfail` stands for a rejected fetch.
JavaScript `x || dflt` on the string-or-absent `error` field is
modelled by `jsOr` (absent and the empty string are falsy).
-/

namespace ShiftFlow

/-- A task record as consumed by the dashboard
(src/pages/index.js, Task fields used by the board). -/
structure Task where
  id : Nat
  title : String
  description : Option String
  priority : String
  room_number : Option String
  estimated_duration : Option Nat
  status : String
  assigned_user : Option String
deriving DecidableEq

/-- A notification entry: `{ id, message, type }` (index.js line 138). -/
structure Notification where
  id : Nat
  message : String
  type : String
deriving DecidableEq

/-- The two persisted local-storage entries, keys `shiftflow_token`
and `shiftflow_user`; `none` models an absent key. -/
structure LocalStorage where
  shiftflow_token : Option String
  shiftflow_user : Option String
deriving DecidableEq

/-- JavaScript `field || dflt` for the optional `error` string of a
parsed JSON body: absent (`none`) and the empty string are falsy. -/
def jsOr (field : Option String) (dflt : String) : String :=
  match field with
  | some v => if v == "" then dflt else v
  | none => dflt

/-- Both persisted entries are present together or absent together. -/
def storageConsistent (s : LocalStorage) : Prop :=
  s.shiftflow_token.isSome = s.shiftflow_user.isSome

/-- Outcome of a fetch against an auth endpoint: 2xx with
`{token, user}` (the user object kept as its serialized form), non-2xx
with a parsed JSON body whose `error` field is optional, or a network
failure carrying the transport error message. -/
inductive AuthResponse where
  | ok (token : String) (userJson : String)
  | err (body : Option String)
  | netfail (msg : String)
deriving DecidableEq

/-- `login` (index.js lines 46-70): on 2xx persists token and user and
returns the data; on non-2xx throws `Error(error.error || 'Login
failed')`; a network failure is rethrown unchanged. The thrown error is
the `Except.error` case, surfaced to the caller (the catch block
rethrows). Storage is returned unchanged on every failure path. -/
def login (store : LocalStorage) (resp : AuthResponse) :
    LocalStorage × Except String (String × String) :=
  match resp with
  | .ok token userJson =>
      (⟨some token, some userJson⟩, .ok (token, userJson))
  | .err body => (store, .error (jsOr body "Login failed"))
  | .netfail msg => (store, .error msg)

/-- `register` (index.js lines 72-96): same shape as `login` against
the registration endpoint, default message `Registration failed`. -/
def register (store : LocalStorage) (resp : AuthResponse) :
    LocalStorage × Except String (String × String) :=
  match resp with
  | .ok token userJson =>
      (⟨some token, some userJson⟩, .ok (token, userJson))
  | .err body => (store, .error (jsOr body "Registration failed"))
  | .netfail msg => (store, .error msg)

/-- `logout` (index.js lines 98-103): removes both persisted keys
unconditionally. -/
def logout (_store : LocalStorage) : LocalStorage :=
  ⟨none, none⟩

/-- The startup probe's failure path (index.js lines 29-39): on a
non-ok probe response or a network error both persisted keys are
removed. -/
def probeFailure (_store : LocalStorage) : LocalStorage :=
  ⟨none, none⟩

/-- A pending `setTimeout` scheduled by `addNotification`: it removes
every notification with the captured `id` when it fires at `fireAt`. -/
structure NotifTimer where
  id : Nat
  fireAt : Nat
deriving DecidableEq

/-- The notification queue together with its pending removal timers. -/
structure NotifState where
  notifications : List Notification
  timers : List NotifTimer
deriving DecidableEq

/-- `addNotification` (index.js lines 136-144) called at clock time
`now` (milliseconds, the source of `Date.now()`): appends
`{ id := now, message, type }` to the queue and schedules a removal
timer for that id 5000 ms later. -/
def addNotification (s : NotifState) (now : Nat) (message ty : String) :
    NotifState :=
  { notifications := s.notifications ++ [⟨now, message, ty⟩],
    timers := s.timers ++ [⟨now, now + 5000⟩] }

/-- Fires every pending timer due at or before `now`: a notification
survives exactly when no due timer carries its id (each timer callback
filters the queue by id; the filters commute, so firing them together
is equivalent to firing them in order). Fired timers are discarded. -/
def fireDueTimers (s : NotifState) (now : Nat) : NotifState :=
  { notifications := s.notifications.filter (fun n =>
      !(s.timers.any (fun tm => decide (tm.fireAt ≤ now) && tm.id == n.id))),
    timers := s.timers.filter (fun tm => !(decide (tm.fireAt ≤ now))) }

/-- Applies `addNotification` for each `(time, message, type)` event in
order, starting from `s`. -/
def enqueueAll (s : NotifState) (events : List (Nat × String × String)) :
    NotifState :=
  events.foldl (fun acc e => addNotification acc e.1 e.2.1 e.2.2) s

/-- The queue state produced by a sequence of enqueues from the empty
initial state. -/
def runEnqueues (events : List (Nat × String × String)) : NotifState :=
  enqueueAll ⟨[], []⟩ events

/-- The dashboard's local state relevant to the task operations: the
task collection and the create-modal flag. -/
structure DashState where
  tasks : List Task
  showCreateTask : Bool
deriving DecidableEq

/-- Outcome of a fetch against `/tasks` (POST) or `/tasks/{id}` (PUT):
2xx with the returned task object, non-2xx with a parsed body whose
`error` field is optional, or a network failure. -/
inductive ApiResponse where
  | ok (task : Task)
  | err (body : Option String)
  | netfail
deriving DecidableEq

/-- `createTask` (index.js lines 454-477): on ok, prepends the
server-returned task, emits a success notification and closes the
modal; on non-ok emits `error.error || 'Failed to create task'`; on a
network error emits the default. Returns the new state and the list of
`(message, type)` notifications enqueued by the call. -/
def createTask (s : DashState) (resp : ApiResponse) :
    DashState × List (String × String) :=
  match resp with
  | .ok newTask =>
      (⟨newTask :: s.tasks, false⟩, [("Task created successfully!", "success")])
  | .err body => (s, [(jsOr body "Failed to create task", "error")])
  | .netfail => (s, [("Failed to create task", "error")])

/-- `updateTaskStatus` (index.js lines 479-501): the request sends
`{ status }` for `taskId`; on ok every local task whose id equals
`taskId` is replaced by the server's returned task and a success
notification fires; on non-ok emits `error.error || 'Failed to update
task'`; on a network error emits the default. -/
def updateTaskStatus (s : DashState) (taskId : Nat) (_status : String)
    (resp : ApiResponse) : DashState × List (String × String) :=
  match resp with
  | .ok updatedTask =>
      ({ s with tasks := s.tasks.map (fun t =>
            if t.id == taskId then updatedTask else t) },
       [("Task updated successfully!", "success")])
  | .err body => (s, [(jsOr body "Failed to update task", "error")])
  | .netfail => (s, [("Failed to update task", "error")])

/-- Outcome of the `GET /tasks` fetch: 2xx whose parsed body's `tasks`
field is present or absent, a non-2xx response, or a network failure. -/
inductive TasksResponse where
  | ok (body : Option (List Task))
  | err
  | netfail
deriving DecidableEq

/-- Observable outcome of one `loadTasks` call: the resulting task
collection, the notifications enqueued, the loading flag after the
`finally`, and whether `console.error` ran. -/
structure LoadResult where
  tasks : List Task
  notifications : List (String × String)
  loading : Bool
  loggedError : Bool
deriving DecidableEq

/-- `loadTasks` (index.js lines 434-452): on ok replaces the collection
by `data.tasks || []`; a non-ok response is ignored (no else branch); a
network error only hits `console.error`; `finally` clears loading. -/
def loadTasks (tasks : List Task) (resp : TasksResponse) : LoadResult :=
  match resp with
  | .ok body => ⟨body.getD [], [], false, false⟩
  | .err => ⟨tasks, [], false, false⟩
  | .netfail => ⟨tasks, [], false, true⟩

/-- The four status buckets derived by `tasksByStatus`. -/
structure TasksByStatus where
  todo : List Task
  in_progress : List Task
  completed : List Task
  handoff : List Task
deriving DecidableEq

/-- `tasksByStatus` (index.js lines 504-511): four filters of the
collection, one per recognized status value. -/
def tasksByStatus (tasks : List Task) : TasksByStatus :=
  { todo := tasks.filter (fun t => t.status == "todo"),
    in_progress := tasks.filter (fun t => t.status == "in_progress"),
    completed := tasks.filter (fun t => t.status == "completed"),
    handoff := tasks.filter (fun t => t.status == "handoff") }

/-- A status-transition button offered on a task card. -/
structure StatusAction where
  label : String
  status : String
  color : String
deriving DecidableEq

/-- `getStatusActions` (index.js lines 679-696): pushes the offered
transitions for the current status onto an initially empty list. -/
def getStatusActions (currentStatus : String) : List StatusAction :=
  let actions : List StatusAction := []
  let actions := if currentStatus == "todo" then
    actions ++ [⟨"Start", "in_progress", "bg-blue-600"⟩] else actions
  let actions := if currentStatus == "in_progress" then
    actions ++ [⟨"Complete", "completed", "bg-green-600"⟩,
                ⟨"Handoff", "handoff", "bg-purple-600"⟩] else actions
  let actions := if currentStatus == "handoff" then
    actions ++ [⟨"Complete", "completed", "bg-green-600"⟩] else actions
  actions

/-- The registration form's four fields. -/
structure RegisterFormData where
  organizationName : String
  adminName : String
  adminEmail : String
  adminPassword : String
deriving DecidableEq

/-- What the RegisterForm submit handler decides before any network
traffic: whether `register` is invoked, and the notifications enqueued
by the client-side checks. -/
structure SubmitCheck where
  networkCalled : Bool
  notifications : List (String × String)
deriving DecidableEq

namespace RegisterForm

/-- `RegisterForm.handleSubmit`, client-side checks only (index.js
lines 321-332): an empty field (falsy in JS) blocks with `Please fill
in all fields`; then `adminPassword.length < 8` blocks with `Password
must be at least 8 characters`; otherwise `register` is called. -/
def handleSubmit (f : RegisterFormData) : SubmitCheck :=
  if f.organizationName == "" || f.adminName == "" ||
      f.adminEmail == "" || f.adminPassword == "" then
    ⟨false, [("Please fill in all fields", "error")]⟩
  else if f.adminPassword.length < 8 then
    ⟨false, [("Password must be at least 8 characters", "error")]⟩
  else
    ⟨true, []⟩

end RegisterForm

/-- A concrete task used by the witnesses below. -/
def sampleTask (n : Nat) (st : String) : Task :=
  ⟨n, "Check vitals", none, "normal", none, none, st, none⟩

end ShiftFlow

namespace ShiftFlow

/-- Unfolding `enqueueAll`: starting from `s`, the queue gains one
notification and one timer per event, in event order. -/
theorem enqueueAll_eq (events : List (Nat × String × String)) :
    ∀ s : NotifState, enqueueAll s events =
      ⟨s.notifications ++ events.map (fun e => ⟨e.1, e.2.1, e.2.2⟩),
       s.timers ++ events.map (fun e => ⟨e.1, e.1 + 5000⟩)⟩ := by
  induction events with
  | nil => intro s; simp [enqueueAll]
  | cons e rest ih =>
      intro s
      show enqueueAll (addNotification s e.1 e.2.1 e.2.2) rest = _
      rw [ih]
      simp [addNotification]

/-- Helper for C10: mapping the conditional replacement over a
collection in which no task carries the replaced id is the identity. -/
theorem map_replace_id (l : List Task) (taskId : Nat) (updated : Task)
    (h : ∀ t ∈ l, t.id ≠ taskId) :
    l.map (fun t => if t.id == taskId then updated else t) = l := by
  have := List.map_congr_left (l := l)
    (f := fun t => if t.id == taskId then updated else t) (g := fun t => t)
    (by intro t ht
        have := h t ht
        simp [this])
  simpa using this

/-- C1: each session-store operation (login success, register success,
logout, startup-probe failure) leaves local storage with the token and
the serialized user either both present or both absent. -/
theorem C1_persist_together (store : LocalStorage) (t u : String) :
    storageConsistent (login store (AuthResponse.ok t u)).1 ∧
    storageConsistent (register store (AuthResponse.ok t u)).1 ∧
    storageConsistent (logout store) ∧
    storageConsistent (probeFailure store) := by
  refine ⟨?_, ?_, ?_, ?_⟩ <;> rfl

/-- C2: membership in each derived bucket is exactly membership in the
collection with the matching status, and a task whose status is none
of the four recognized values appears in no bucket. -/
theorem C2_partition (tasks : List Task) (t : Task) :
    (t ∈ (tasksByStatus tasks).todo ↔ t ∈ tasks ∧ t.status = "todo") ∧
    (t ∈ (tasksByStatus tasks).in_progress ↔
      t ∈ tasks ∧ t.status = "in_progress") ∧
    (t ∈ (tasksByStatus tasks).completed ↔
      t ∈ tasks ∧ t.status = "completed") ∧
    (t ∈ (tasksByStatus tasks).handoff ↔ t ∈ tasks ∧ t.status = "handoff") ∧
    (t.status ≠ "todo" → t.status ≠ "in_progress" → t.status ≠ "completed" →
      t.status ≠ "handoff" →
      t ∉ (tasksByStatus tasks).todo ∧ t ∉ (tasksByStatus tasks).in_progress ∧
      t ∉ (tasksByStatus tasks).completed ∧
      t ∉ (tasksByStatus tasks).handoff) := by
  refine ⟨?_, ?_, ?_, ?_, ?_⟩
  all_goals simp [tasksByStatus, List.mem_filter]
  all_goals tauto

/-- C2 witness: a task with the unrecognized status `blocked` is in
none of the four buckets of the board built from it alone. -/
theorem C2_partition_witness :
    sampleTask 1 "blocked" ∉ (tasksByStatus [sampleTask 1 "blocked"]).todo ∧
    sampleTask 1 "blocked" ∉
      (tasksByStatus [sampleTask 1 "blocked"]).in_progress ∧
    sampleTask 1 "blocked" ∉ (tasksByStatus [sampleTask 1 "blocked"]).completed ∧
    sampleTask 1 "blocked" ∉ (tasksByStatus [sampleTask 1 "blocked"]).handoff :=
  (C2_partition [sampleTask 1 "blocked"] (sampleTask 1 "blocked")).2.2.2.2
    (by decide) (by decide) (by decide) (by decide)

/-- C3: the offered transitions are exactly `todo → in_progress`,
`in_progress → completed, handoff`, `handoff → completed`, and nothing
from `completed` or any unrecognized status. -/
theorem C3_transitions :
    (getStatusActions "todo").map StatusAction.status = ["in_progress"] ∧
    (getStatusActions "in_progress").map StatusAction.status =
      ["completed", "handoff"] ∧
    (getStatusActions "handoff").map StatusAction.status = ["completed"] ∧
    getStatusActions "completed" = [] ∧
    (∀ st : String, st ≠ "todo" → st ≠ "in_progress" → st ≠ "handoff" →
      getStatusActions st = []) := by
  refine ⟨rfl, rfl, rfl, rfl, ?_⟩
  intro st h1 h2 h3
  simp [getStatusActions, h1, h2, h3]

/-- C3 witness: a task with the unrecognized status `blocked` is
offered no transition. -/
theorem C3_transitions_witness : getStatusActions "blocked" = [] :=
  C3_transitions.2.2.2.2 "blocked" (by decide) (by decide) (by decide)

/-- C4 counterexample: a non-2xx createTask response whose body has the
error field present but equal to the empty string produces the default
message, not the server's error field. -/
theorem C4_counterexample :
    (createTask ⟨[], true⟩ (ApiResponse.err (some ""))).2 =
      [("Failed to create task", "error")] ∧
    "Failed to create task" ≠ "" :=
  ⟨rfl, by decide⟩

/-- C4 (amended): on every failing createTask or updateTaskStatus call
the local state is unchanged and exactly one error notification is
enqueued, whose message is the server's error field when present and
non-empty and a fixed per-operation default otherwise. -/
theorem C4_failure_frame (s : DashState) (taskId : Nat) (st : String)
    (body : Option String) :
    ((createTask s (ApiResponse.err body)).1 = s ∧
     (createTask s ApiResponse.netfail).1 = s ∧
     (updateTaskStatus s taskId st (ApiResponse.err body)).1 = s ∧
     (updateTaskStatus s taskId st ApiResponse.netfail).1 = s) ∧
    (∀ m : String, body = some m → m ≠ "" →
      (createTask s (ApiResponse.err body)).2 = [(m, "error")] ∧
      (updateTaskStatus s taskId st (ApiResponse.err body)).2 =
        [(m, "error")]) ∧
    ((body = none ∨ body = some "") →
      (createTask s (ApiResponse.err body)).2 =
        [("Failed to create task", "error")] ∧
      (updateTaskStatus s taskId st (ApiResponse.err body)).2 =
        [("Failed to update task", "error")]) ∧
    ((createTask s ApiResponse.netfail).2 =
      [("Failed to create task", "error")] ∧
     (updateTaskStatus s taskId st ApiResponse.netfail).2 =
      [("Failed to update task", "error")]) := by
  refine ⟨⟨rfl, rfl, rfl, rfl⟩, ?_, ?_, rfl, rfl⟩
  · rintro m rfl hm
    constructor <;> simp [createTask, updateTaskStatus, jsOr, hm]
  · rintro (rfl | rfl) <;>
      exact ⟨rfl, rfl⟩

/-- C4 witness: a failing createTask with server message `boom` leaves
an empty collection empty and enqueues exactly that message. -/
theorem C4_failure_frame_witness :
    (createTask ⟨[], true⟩ (ApiResponse.err (some "boom"))).1 = ⟨[], true⟩ ∧
    (createTask ⟨[], true⟩ (ApiResponse.err (some "boom"))).2 =
      [("boom", "error")] :=
  ⟨((C4_failure_frame ⟨[], true⟩ 0 "todo" (some "boom")).1).1,
   (((C4_failure_frame ⟨[], true⟩ 0 "todo" (some "boom")).2.1 "boom" rfl
      (by decide))).1⟩

/-- C5: a successful createTask prepends the server-returned task (it
becomes the head, the previous tasks follow unchanged), enqueues one
success notification, and closes the create modal. -/
theorem C5_create_success (s : DashState) (newTask : Task) :
    (createTask s (ApiResponse.ok newTask)).1.tasks = newTask :: s.tasks ∧
    (createTask s (ApiResponse.ok newTask)).2 =
      [("Task created successfully!", "success")] ∧
    (createTask s (ApiResponse.ok newTask)).1.showCreateTask = false :=
  ⟨rfl, rfl, rfl⟩

/-- C6: each enqueue appends the new entry at the end of the queue and
schedules its removal exactly 5000 ms later; no notification is removed
by a timer before its 5000 ms elapse; and once every timer due by a
time at least 5000 ms past the last enqueue has fired, the queue is
empty. -/
theorem C6_expiry :
    (∀ (s : NotifState) (now : Nat) (message ty : String),
      (addNotification s now message ty).notifications =
        s.notifications ++ [⟨now, message, ty⟩] ∧
      (addNotification s now message ty).timers =
        s.timers ++ [⟨now, now + 5000⟩]) ∧
    (∀ (events : List (Nat × String × String)) (T : Nat),
      (∀ e ∈ events, T < e.1 + 5000) →
      (fireDueTimers (runEnqueues events) T).notifications =
        (runEnqueues events).notifications) ∧
    (∀ (events : List (Nat × String × String)) (T : Nat),
      (∀ e ∈ events, e.1 + 5000 ≤ T) →
      (fireDueTimers (runEnqueues events) T).notifications = []) := by
  refine ⟨fun s now message ty => ⟨rfl, rfl⟩, ?_, ?_⟩
  · intro events T h
    rw [runEnqueues, enqueueAll_eq]
    simp only [fireDueTimers, List.nil_append]
    rw [List.filter_eq_self]
    intro n hn
    simp only [Bool.not_eq_true', List.any_eq_false, List.mem_map]
    rintro tm ⟨e, he, rfl⟩
    simp [Nat.not_le.mpr (h e he)]
  · intro events T h
    rw [runEnqueues, enqueueAll_eq]
    simp only [fireDueTimers, List.nil_append]
    rw [List.filter_eq_nil_iff]
    intro n hn
    simp only [List.mem_map] at hn
    obtain ⟨e, he, rfl⟩ := hn
    simp only [Bool.not_eq_true', Bool.not_eq_false, List.any_eq_true]
    refine ⟨⟨e.1, e.1 + 5000⟩, List.mem_map.mpr ⟨e, he, rfl⟩, ?_⟩
    simp [h e he]

/-- C6 witness: two notifications enqueued at 100 ms and 200 ms are
both still queued at 5099 ms and both gone at 5200 ms. -/
theorem C6_expiry_witness :
    (fireDueTimers (runEnqueues [(100, "a", "info"), (200, "b", "error")])
        5099).notifications =
      (runEnqueues [(100, "a", "info"), (200, "b", "error")]).notifications ∧
    (fireDueTimers (runEnqueues [(100, "a", "info"), (200, "b", "error")])
        5200).notifications = [] :=
  ⟨C6_expiry.2.1 [(100, "a", "info"), (200, "b", "error")] 5099 (by decide),
   C6_expiry.2.2 [(100, "a", "info"), (200, "b", "error")] 5200 (by decide)⟩

/-- C7 counterexample: a non-2xx login response whose body has the
error field present but equal to the empty string fails with the
default message, not the server-supplied (empty) message. -/
theorem C7_counterexample :
    (login ⟨none, none⟩ (AuthResponse.err (some ""))).2 =
      Except.error "Login failed" ∧
    "Login failed" ≠ "" :=
  ⟨rfl, by decide⟩

/-- C7 (amended): a non-2xx login response makes login fail with an
error surfaced to the caller (the catch block rethrows it), carrying
the server-supplied message when the body's error field is present and
non-empty and the default `Login failed` otherwise; storage is left
unchanged. -/
theorem C7_login_error (store : LocalStorage) (body : Option String) :
    (∀ m : String, body = some m → m ≠ "" →
      (login store (AuthResponse.err body)).2 = Except.error m) ∧
    ((body = none ∨ body = some "") →
      (login store (AuthResponse.err body)).2 =
        Except.error "Login failed") ∧
    (login store (AuthResponse.err body)).1 = store := by
  refine ⟨?_, ?_, rfl⟩
  · rintro m rfl hm
    simp [login, jsOr, hm]
  · rintro (rfl | rfl) <;> rfl

/-- C7 witness: a non-2xx login whose body says `Invalid credentials`
fails with exactly that message. -/
theorem C7_login_error_witness :
    (login ⟨none, none⟩
        (AuthResponse.err (some "Invalid credentials"))).2 =
      Except.error "Invalid credentials" :=
  (C7_login_error ⟨none, none⟩ (some "Invalid credentials")).1
    "Invalid credentials" rfl (by decide)

/-- C8: a failing loadTasks call (non-2xx response or network error)
leaves the previous collection untouched, enqueues no notification,
and clears the loading flag; only the network-error path logs. -/
theorem C8_silent_load_failure (tasks : List Task) :
    ((loadTasks tasks TasksResponse.err).tasks = tasks ∧
     (loadTasks tasks TasksResponse.err).notifications = [] ∧
     (loadTasks tasks TasksResponse.err).loading = false) ∧
    ((loadTasks tasks TasksResponse.netfail).tasks = tasks ∧
     (loadTasks tasks TasksResponse.netfail).notifications = [] ∧
     (loadTasks tasks TasksResponse.netfail).loading = false) :=
  ⟨⟨rfl, rfl, rfl⟩, ⟨rfl, rfl, rfl⟩⟩

/-- C9: with all four fields non-empty and a password shorter than 8
characters, the submit handler makes no network call and enqueues the
error notification `Password must be at least 8 characters`. -/
theorem C9_password_min_length (f : RegisterFormData)
    (h1 : f.organizationName ≠ "") (h2 : f.adminName ≠ "")
    (h3 : f.adminEmail ≠ "") (h4 : f.adminPassword ≠ "")
    (h5 : f.adminPassword.length < 8) :
    RegisterForm.handleSubmit f =
      ⟨false, [("Password must be at least 8 characters", "error")]⟩ := by
  unfold RegisterForm.handleSubmit
  rw [if_neg, if_pos h5]
  simp [h1, h2, h3, h4]

/-- C9 witness: a 7-character password with the other fields filled is
blocked client-side with the min-length message. -/
theorem C9_password_min_length_witness :
    RegisterForm.handleSubmit
        ⟨"Metro General Hospital", "Ann Admin", "ann@example.com",
         "1234567"⟩ =
      ⟨false, [("Password must be at least 8 characters", "error")]⟩ :=
  C9_password_min_length
    ⟨"Metro General Hospital", "Ann Admin", "ann@example.com", "1234567"⟩
    (by decide) (by decide) (by decide) (by decide) (by decide)

/-- C10: a successful updateTaskStatus preserves the collection's
length, leaves every position holding a task with a different id
unchanged, is the identity on the whole collection when no task
carries the given id, and still enqueues the success notification. -/
theorem C10_update_frame (s : DashState) (taskId : Nat) (st : String)
    (updated : Task) :
    (updateTaskStatus s taskId st (ApiResponse.ok updated)).1.tasks.length =
      s.tasks.length ∧
    (∀ (i : Nat) (t : Task), s.tasks[i]? = some t → t.id ≠ taskId →
      (updateTaskStatus s taskId st (ApiResponse.ok updated)).1.tasks[i]? =
        some t) ∧
    ((∀ t ∈ s.tasks, t.id ≠ taskId) →
      (updateTaskStatus s taskId st (ApiResponse.ok updated)).1.tasks =
        s.tasks) ∧
    (updateTaskStatus s taskId st (ApiResponse.ok updated)).2 =
      [("Task updated successfully!", "success")] := by
  refine ⟨?_, ?_, ?_, rfl⟩
  · simp [updateTaskStatus]
  · intro i t hi hne
    simp [updateTaskStatus, List.getElem?_map, hi, hne]
  · intro h
    simp only [updateTaskStatus]
    exact congrArg DashState.tasks
      (congrArg (fun l => DashState.mk l s.showCreateTask)
        (map_replace_id s.tasks taskId updated h))

/-- C10 witness: updating id 5, absent from a one-task collection,
leaves the collection unchanged. -/
theorem C10_update_frame_witness :
    (updateTaskStatus ⟨[sampleTask 1 "todo"], false⟩ 5 "completed"
        (ApiResponse.ok (sampleTask 9 "completed"))).1.tasks =
      [sampleTask 1 "todo"] :=
  (C10_update_frame ⟨[sampleTask 1 "todo"], false⟩ 5 "completed"
      (sampleTask 9 "completed")).2.2.1 (by decide)

end ShiftFlow
